import Mathlib

/-!
Verification of the rf-link-planner core against its source.

The repository contains two near-duplicate implementations of the same
React component: `src/src/App.js` (called the "App variant" below) and
`src/unnamed/part_000` (called the "part_000 variant").  Their helper
functions `parseFreqHz`, `distanceMeters`, `bearingBetween`,
`fresnelRadius` and `destPoint` are textually identical; the two variants
differ in
  * the frequency-equality policy (`App.js` compares parsed values with
    strict `!==`, `part_000` uses a relative tolerance of `1e-6` of the
    larger value, failing closed on NaN), and
  * the ellipse axes (`App.js` divides the semi-major axis by 2000 and the
    semi-minor axis by 50; `part_000` uses the raw metre values).

Numeric model: the JavaScript `number` type is embedded as exact
arithmetic.  The store/parser layer uses `JsNum`, an unnormalized
fraction of an integer numerator over a natural denominator, whose
operations are plain integer arithmetic so that every concrete store
computation reduces in the kernel; `JsNum.toRat` interprets it in `ℚ`,
and every value the parser produces has a positive denominator.  The JS
`NaN` produced by a failed parse is embedded as `Option.none`; all
arithmetic on successfully parsed values is NaN-free, so `Option JsNum`
is a faithful model of the parser's value space.  JS numeric comparison
`===` on such values (false whenever one side is NaN) is `jsNumEq`.
The trigonometric geodesy layer uses `ℝ`.
-/

/-! ## Exact fractions standing in for JS numbers -/

/-- An exact fraction `num / den`, not necessarily in lowest terms.
Every value built by the parser below has `0 < den`. -/
structure JsNum where
  num : Int
  den : Nat
deriving DecidableEq

/-- Interpretation of a `JsNum` as a rational number. -/
def JsNum.toRat (a : JsNum) : ℚ := (a.num : ℚ) / (a.den : ℚ)

/-- Comparison `a <= b`, by cross multiplication (valid for positive
denominators). -/
def JsNum.le (a b : JsNum) : Bool := a.num * (b.den : Int) ≤ b.num * (a.den : Int)

/-- Comparison `a < b`, by cross multiplication (valid for positive
denominators). -/
def JsNum.lt (a b : JsNum) : Bool := a.num * (b.den : Int) < b.num * (a.den : Int)

/-- Exact product. -/
def JsNum.mul (a b : JsNum) : JsNum := ⟨a.num * b.num, a.den * b.den⟩

/-- Exact difference, on the common denominator. -/
def JsNum.sub (a b : JsNum) : JsNum :=
  ⟨a.num * (b.den : Int) - b.num * (a.den : Int), a.den * b.den⟩

/-- JS `Math.abs`. -/
def JsNum.abs (a : JsNum) : JsNum := ⟨(a.num.natAbs : Int), a.den⟩

/-- JS `Math.max` of two (non-NaN) numbers. -/
def JsNum.max (a b : JsNum) : JsNum := if JsNum.le a b then b else a

/-- JS strict numeric equality `===` on possibly-NaN numbers: false when
either side is NaN, otherwise equality of values. -/
def jsNumEq (x y : Option JsNum) : Bool :=
  match x, y with
  | some u, some v => u.num * (v.den : Int) == v.num * (u.den : Int)
  | _, _ => false

theorem JsNum.toRat_def (a : JsNum) : a.toRat = (a.num : ℚ) / (a.den : ℚ) := rfl

theorem JsNum.le_iff {a b : JsNum} (ha : 0 < a.den) (hb : 0 < b.den) :
    JsNum.le a b = true ↔ a.toRat ≤ b.toRat := by
  have ha' : (0 : ℚ) < (a.den : ℚ) := by exact_mod_cast ha
  have hb' : (0 : ℚ) < (b.den : ℚ) := by exact_mod_cast hb
  rw [JsNum.le, JsNum.toRat, JsNum.toRat, div_le_div_iff₀ ha' hb', decide_eq_true_eq]
  constructor
  · intro h
    exact_mod_cast h
  · intro h
    exact_mod_cast h

theorem JsNum.lt_iff {a b : JsNum} (ha : 0 < a.den) (hb : 0 < b.den) :
    JsNum.lt a b = true ↔ a.toRat < b.toRat := by
  have ha' : (0 : ℚ) < (a.den : ℚ) := by exact_mod_cast ha
  have hb' : (0 : ℚ) < (b.den : ℚ) := by exact_mod_cast hb
  rw [JsNum.lt, JsNum.toRat, JsNum.toRat, div_lt_div_iff₀ ha' hb', decide_eq_true_eq]
  constructor
  · intro h
    exact_mod_cast h
  · intro h
    exact_mod_cast h

theorem JsNum.mul_toRat (a b : JsNum) : (JsNum.mul a b).toRat = a.toRat * b.toRat := by
  simp only [JsNum.mul, JsNum.toRat]
  push_cast
  rw [div_mul_div_comm]

theorem JsNum.sub_toRat {a b : JsNum} (ha : 0 < a.den) (hb : 0 < b.den) :
    (JsNum.sub a b).toRat = a.toRat - b.toRat := by
  have ha' : ((a.den : ℚ)) ≠ 0 := by exact_mod_cast ha.ne'
  have hb' : ((b.den : ℚ)) ≠ 0 := by exact_mod_cast hb.ne'
  simp only [JsNum.sub, JsNum.toRat]
  rw [div_sub_div _ _ ha' hb']
  push_cast
  ring_nf

theorem JsNum.abs_toRat (a : JsNum) : (JsNum.abs a).toRat = |a.toRat| := by
  simp only [JsNum.abs, JsNum.toRat]
  rw [abs_div, Int.cast_natAbs]
  congr 1
  · push_cast
    ring
  · rw [abs_of_nonneg (by positivity)]

theorem JsNum.max_toRat {a b : JsNum} (ha : 0 < a.den) (hb : 0 < b.den) :
    (JsNum.max a b).toRat = Max.max a.toRat b.toRat := by
  rw [JsNum.max]
  by_cases h : JsNum.le a b = true
  · rw [if_pos h, max_eq_right ((JsNum.le_iff ha hb).1 h)]
  · have h' : ¬ a.toRat ≤ b.toRat := fun hc => h ((JsNum.le_iff ha hb).2 hc)
    rw [if_neg h, max_eq_left (le_of_lt (lt_of_not_le h'))]

theorem JsNum.max_den (a b : JsNum) :
    (JsNum.max a b).den = a.den ∨ (JsNum.max a b).den = b.den := by
  rw [JsNum.max]
  by_cases h : JsNum.le a b = true
  · rw [if_pos h]; right; rfl
  · rw [if_neg h]; left; rfl

theorem jsNumEq_iff {a b : JsNum} (ha : 0 < a.den) (hb : 0 < b.den) :
    jsNumEq (some a) (some b) = true ↔ a.toRat = b.toRat := by
  have ha' : ((a.den : ℚ)) ≠ 0 := by exact_mod_cast ha.ne'
  have hb' : ((b.den : ℚ)) ≠ 0 := by exact_mod_cast hb.ne'
  rw [jsNumEq, beq_iff_eq, JsNum.toRat, JsNum.toRat, div_eq_div_iff ha' hb']
  constructor
  · intro h
    exact_mod_cast h
  · intro h
    exact_mod_cast h

/-! ## The frequency parser (`parseFreqHz`, identical in both variants)

The JS string helpers `trim`, `toLowerCase` and `endsWith` are modelled
structurally on the character list of the string (the frequency strings
of this application are ASCII; the Unicode-only differences of the JS
originals are out of scope). -/

/-- ASCII whitespace as stripped by JS `trim`. -/
def isJsSpace (c : Char) : Bool :=
  c = ' ' || c = '\t' || c = '\n' || c = '\r' || c = '\x0b' || c = '\x0c'

/-- JS `String.prototype.trim`. -/
def jsTrim (cs : List Char) : List Char :=
  ((cs.dropWhile isJsSpace).reverse.dropWhile isJsSpace).reverse

/-- JS `String.prototype.toLowerCase` (ASCII range). -/
def jsToLower (cs : List Char) : List Char := cs.map Char.toLower

/-- JS `String.prototype.endsWith`. -/
def jsEndsWith (cs suffix_ : List Char) : Bool :=
  suffix_.length ≤ cs.length && (cs.drop (cs.length - suffix_.length)) == suffix_

/-- Value of a list of decimal digit characters read base 10. -/
def digitsVal (ds : List Char) : Nat :=
  ds.foldl (fun acc c => acc * 10 + (c.toNat - '0'.toNat)) 0

/-- Read an optional leading sign, JS-`parseFloat` style. -/
def readSign : List Char → Int × List Char
  | '+' :: rest => (1, rest)
  | '-' :: rest => (-1, rest)
  | cs => (1, cs)

/-- Read the part of a JS float literal after the letter `e`/`E`:
an optional sign and digits.  If no digit follows, JS ignores the
exponent marker entirely, which is the `0` fallback here. -/
def readExponentTail (cs : List Char) : Int :=
  let sg := (readSign cs).1
  let ds := (readSign cs).2.takeWhile Char.isDigit
  if ds.isEmpty then 0 else sg * (digitsVal ds : Int)

/-- Read an optional exponent suffix of a JS float literal. -/
def readExponent : List Char → Int
  | 'e' :: rest => readExponentTail rest
  | 'E' :: rest => readExponentTail rest
  | _ => 0

/-- Model of JavaScript `parseFloat`: skip leading whitespace, read an
optional sign, integer digits, an optional fractional part and an
optional exponent, ignoring any trailing garbage; yield `none` (NaN)
when no digit was read.  (`parseFloat` also accepts the case-sensitive
literal `Infinity`; in this codebase the argument has always been
lower-cased first, so that branch is unreachable and is not modelled.) -/
def jsParseFloat (cs' : List Char) : Option JsNum :=
  let cs := cs'.dropWhile isJsSpace
  let sg := (readSign cs).1
  let cs0 := (readSign cs).2
  let ip := cs0.takeWhile Char.isDigit
  let cs1 := cs0.dropWhile Char.isDigit
  let fp := match cs1 with
    | '.' :: rest => rest.takeWhile Char.isDigit
    | _ => []
  let cs2 := match cs1 with
    | '.' :: rest => rest.dropWhile Char.isDigit
    | _ => cs1
  if ip.isEmpty && fp.isEmpty then none
  else
    let e := readExponent cs2
    let baseNum : Int := sg * ((digitsVal ip : Int) * 10 ^ fp.length + (digitsVal fp : Int))
    let baseDen : Nat := 10 ^ fp.length
    if 0 ≤ e then some ⟨baseNum * 10 ^ e.toNat, baseDen⟩
    else some ⟨baseNum, baseDen * 10 ^ (-e).toNat⟩

/-- One GHz, in Hz. -/
def ghzFactor : JsNum := ⟨1000000000, 1⟩

/-- One MHz, in Hz. -/
def mhzFactor : JsNum := ⟨1000000, 1⟩

/-- Function `parseFreqHz` from both variants (lines 27–36 of each file):
an empty (falsy) string is NaN; a `ghz`/`mhz`/`hz` suffix (checked on the
trimmed, lower-cased string, in that order) scales the `parseFloat` value
to the corresponding unit; a bare number is GHz when at least 1 and MHz
otherwise; a failed `parseFloat` propagates NaN. -/
def parseFreqHz (freq : String) : Option JsNum :=
  if freq = "" then none
  else
    let s := jsToLower (jsTrim freq.data)
    if jsEndsWith s "ghz".data then (jsParseFloat s).map (fun n => JsNum.mul n ghzFactor)
    else if jsEndsWith s "mhz".data then (jsParseFloat s).map (fun n => JsNum.mul n mhzFactor)
    else if jsEndsWith s "hz".data then jsParseFloat s
    else match jsParseFloat s with
      | none => none
      | some n =>
        some (if JsNum.le ⟨1, 1⟩ n then JsNum.mul n ghzFactor else JsNum.mul n mhzFactor)

theorem jsParseFloat_den_pos {cs : List Char} {q : JsNum}
    (h : jsParseFloat cs = some q) : 0 < q.den := by
  rw [jsParseFloat] at h
  simp only [] at h
  split at h
  · exact absurd h (by simp)
  · split at h <;>
    · rw [Option.some.injEq] at h
      subst h
      positivity

theorem parseFreqHz_den_pos {s : String} {q : JsNum}
    (h : parseFreqHz s = some q) : 0 < q.den := by
  rw [parseFreqHz] at h
  split at h
  · exact absurd h (by simp)
  · simp only [] at h
    split at h
    · rw [Option.map_eq_some'] at h
      obtain ⟨n, hn, he⟩ := h
      subst he
      have := jsParseFloat_den_pos hn
      simpa [JsNum.mul, ghzFactor] using this
    · split at h
      · rw [Option.map_eq_some'] at h
        obtain ⟨n, hn, he⟩ := h
        subst he
        have := jsParseFloat_den_pos hn
        simpa [JsNum.mul, mhzFactor] using this
      · split at h
        · exact jsParseFloat_den_pos h
        · split at h
          · exact absurd h (by simp)
          · rw [Option.some.injEq] at h
            subst h
            split <;>
            · have := jsParseFloat_den_pos (by assumption)
              simpa [JsNum.mul, ghzFactor, mhzFactor] using this

example : parseFreqHz "5 GHz" = some ⟨5000000000, 1⟩ := by decide
example : jsNumEq (parseFreqHz "2.4 ghz") (some ⟨2400000000, 1⟩) = true := by decide
example : jsNumEq (parseFreqHz "750 MHz") (some ⟨750000000, 1⟩) = true := by decide
example : jsNumEq (parseFreqHz "915mhz") (some ⟨915000000, 1⟩) = true := by decide
example : jsNumEq (parseFreqHz "60 hz") (some ⟨60, 1⟩) = true := by decide
example : jsNumEq (parseFreqHz "5") (some ⟨5000000000, 1⟩) = true := by decide
example : jsNumEq (parseFreqHz "0.5") (some ⟨500000, 1⟩) = true := by decide
example : parseFreqHz "abc" = none := by decide
example : parseFreqHz "" = none := by decide
example : jsNumEq (parseFreqHz "1.000000001 ghz") (some ⟨1000000001, 1⟩) = true := by decide
example : jsNumEq (jsParseFloat "2.5e2x".data) (some ⟨250, 1⟩) = true := by decide
example : jsNumEq (jsParseFloat "-.5".data) (some ⟨-1, 2⟩) = true := by decide
example : jsNumEq (jsParseFloat "5e-".data) (some ⟨5, 1⟩) = true := by decide

/-! ## The tower/link store -/

/-- A tower as built by `addTower`: id, position and the raw frequency
string shown in the sidebar input. -/
structure Tower where
  id : Nat
  lat : JsNum
  lng : JsNum
  freqStr : String
deriving DecidableEq

/-- A link as built by `createLink`.  (The `fresnel` visualization cache
attached later by `onLinkClick` is not part of any claim checked here and
is omitted.) -/
structure Link where
  id : Nat
  aId : Nat
  bId : Nat
  freqStr : String
deriving DecidableEq

/-- The component state touched by the store operations: the `towers` and
`links` arrays, the two selection hooks, the status `message` and the
`linkId` ref.  (The 3-second message-clearing timer is real time and is
not modelled.) -/
structure PlannerState where
  towers : List Tower
  links : List Link
  selectedTower : Option Nat
  selectedLink : Option Nat
  message : String
  linkId : Nat
deriving DecidableEq

/-- A patch object as passed to `updateTower`; the caller only ever
patches `freqStr`, and nothing patches `id`, so the modelled patch
carries the three mutable fields. -/
structure TowerPatch where
  lat : Option JsNum
  lng : Option JsNum
  freqStr : Option String
deriving DecidableEq

/-- JS spread `{ ...t, ...patch }` for `TowerPatch`. -/
def applyPatch (t : Tower) (p : TowerPatch) : Tower :=
  { id := t.id
    lat := p.lat.getD t.lat
    lng := p.lng.getD t.lng
    freqStr := p.freqStr.getD t.freqStr }

/-- JS `Math.max(...prev.map(p => p.id))`; only evaluated on a nonempty
array (guarded by `prev.length === 0`), where the fold base 0 is
harmless because every stored id is positive. -/
def maxId (ts : List Tower) : Nat :=
  (ts.map (fun t => t.id)).foldl Max.max 0

/-- Function `addTower` (App.js lines 165–170, part_000 lines 178–187, identical):
the id is 1 for an empty array and otherwise derived as
`max(existing ids) + 1`; the new tower starts at the clicked position
with frequency string `"5 GHz"`. -/
def addTower (s : PlannerState) (lat lng : JsNum) : PlannerState :=
  let newId := if s.towers.isEmpty then 1 else maxId s.towers + 1
  { s with towers := s.towers ++ [⟨newId, lat, lng, "5 GHz"⟩] }

/-- Function `removeTower` (both variants, App.js lines 198–202): drop the tower
and every link either of whose endpoints is the removed id, and clear
the tower selection. -/
def removeTower (s : PlannerState) (id : Nat) : PlannerState :=
  { s with towers := s.towers.filter (fun t => t.id != id)
           links := s.links.filter (fun l => l.aId != id && l.bId != id)
           selectedTower := none }

/-- Function `removeLink` (part_000 lines 266–269; App.js calls it from its link
card but never defines it). -/
def removeLink (s : PlannerState) (id : Nat) : PlannerState :=
  { s with links := s.links.filter (fun l => l.id != id)
           selectedLink := none }

/-- The relative tolerance `1e-6` of the frequency comparison. -/
def relTol : JsNum := ⟨1, 1000000⟩

/-- Function `canLink` (part_000 lines 232–237): both frequency strings parse and
the parsed values agree within `1e-6` of the larger one; a NaN on either
side fails. -/
def canLink (a b : Tower) : Bool :=
  match parseFreqHz a.freqStr, parseFreqHz b.freqStr with
  | some fa, some fb =>
    JsNum.le (JsNum.abs (JsNum.sub fa fb)) (JsNum.mul relTol (JsNum.max fa fb))
  | _, _ => false

/-- The unordered-duplicate test shared by both `createLink` variants. -/
def dupLinkTest (aId bId : Nat) (l : Link) : Bool :=
  (l.aId == aId && l.bId == bId) || (l.aId == bId && l.bId == aId)

/-- Function `createLink` of the part_000 variant (lines 239–263).  Every JS
`return` path returns `undefined`, which is the first component `none`
here; the second component is the state after the call.  Rejections for
a self link or a missing tower return silently, a frequency mismatch or
an existing duplicate in either orientation set the status message, and
only the final path appends a link (with the current `linkId` ref value,
post-incrementing it). -/
def createLink (s : PlannerState) (aId bId : Nat) : Option Link × PlannerState :=
  if aId = bId then (none, s)
  else
    match s.towers.find? (fun t => t.id == aId), s.towers.find? (fun t => t.id == bId) with
    | some a, some b =>
      if !canLink a b then (none, { s with message := "Frequencies do not match" })
      else if s.links.any (dupLinkTest aId bId) then
        (none, { s with message := "Link already exists" })
      else
        (none, { s with linkId := s.linkId + 1
                        links := s.links ++ [⟨s.linkId, aId, bId, a.freqStr⟩] })
    | _, _ => (none, s)

/-- Function `updateTower` of the part_000 variant (lines 190–222): patch the
matching tower, then rebuild the links array, dropping (via `.map` to
`null` + `.filter(Boolean)`, modelled as `filterMap`) every link whose
endpoints no longer both resolve or whose parsed frequencies are NaN or
differ by more than `1e-6` of the larger; finally clear the link
selection. -/
def updateTower (s : PlannerState) (id : Nat) (patch : TowerPatch) : PlannerState :=
  let updated := s.towers.map (fun t => if t.id = id then applyPatch t patch else t)
  let newLinks := s.links.filterMap (fun lnk =>
    match updated.find? (fun t => t.id == lnk.aId), updated.find? (fun t => t.id == lnk.bId) with
    | some a, some b =>
      match parseFreqHz a.freqStr, parseFreqHz b.freqStr with
      | some fa, some fb =>
        if JsNum.lt (JsNum.mul relTol (JsNum.max fa fb)) (JsNum.abs (JsNum.sub fa fb)) then
          none
        else some lnk
      | _, _ => none
    | _, _ => none)
  { s with towers := updated, links := newLinks, selectedLink := none }

/-- Function `createLink` of the App variant (App.js lines 205–226): identical
control flow, but the frequency test is the strict comparison
`parseFreqHz(a.freqStr) !== parseFreqHz(b.freqStr)`. -/
def appCreateLink (s : PlannerState) (aId bId : Nat) : Option Link × PlannerState :=
  if aId = bId then (none, s)
  else
    match s.towers.find? (fun t => t.id == aId), s.towers.find? (fun t => t.id == bId) with
    | some a, some b =>
      if !jsNumEq (parseFreqHz a.freqStr) (parseFreqHz b.freqStr) then
        (none, { s with message := "Frequencies do not match" })
      else if s.links.any (dupLinkTest aId bId) then
        (none, { s with message := "Link already exists" })
      else
        (none, { s with linkId := s.linkId + 1
                        links := s.links ++ [⟨s.linkId, aId, bId, a.freqStr⟩] })
    | _, _ => (none, s)

/-- Function `updateTower` of the App variant (App.js lines 173–195): identical
control flow, but a link is kept only when the strict comparison of the
parsed endpoint frequencies succeeds. -/
def appUpdateTower (s : PlannerState) (id : Nat) (patch : TowerPatch) : PlannerState :=
  let updated := s.towers.map (fun t => if t.id = id then applyPatch t patch else t)
  let newLinks := s.links.filterMap (fun lnk =>
    match updated.find? (fun t => t.id == lnk.aId), updated.find? (fun t => t.id == lnk.bId) with
    | some a, some b =>
      if jsNumEq (parseFreqHz a.freqStr) (parseFreqHz b.freqStr) then some lnk else none
    | _, _ => none)
  { s with towers := updated, links := newLinks, selectedLink := none }

/-- A convenient literal for positions in concrete test states. -/
def q0 : JsNum := ⟨0, 1⟩

/-- The empty initial component state. -/
def initialState : PlannerState :=
  { towers := [], links := [], selectedTower := none, selectedLink := none
    message := "Click map to add towers (default 5 GHz)", linkId := 1 }

example :
    ((addTower (addTower initialState q0 q0) q0 q0).towers.map (fun t => t.id)) = [1, 2] := by
  decide
example :
    ((createLink (addTower (addTower initialState q0 q0) q0 q0) 1 2).2.links.map
      (fun l => (l.id, l.aId, l.bId))) = [(1, 1, 2)] := by
  decide
example : (createLink (addTower (addTower initialState q0 q0) q0 q0) 1 1).2.links = [] := by
  decide

/-! ## The geodesy kernel and ellipse sampler

Real-number embedding of the trigonometric helpers.  JS `Math.atan2` and
the float remainder `%` are modelled explicitly; all other operations
map directly onto `Real` functions. -/

noncomputable section

open Real

/-- JS `Math.atan2 y x`: the angle of the point `(x, y)` in `(-π, π]`,
with `atan2 0 0 = 0`. -/
def atan2 (y x : ℝ) : ℝ :=
  if 0 < x then Real.arctan (y / x)
  else if x < 0 ∧ 0 ≤ y then Real.arctan (y / x) + π
  else if x < 0 ∧ y < 0 then Real.arctan (y / x) - π
  else if x = 0 ∧ 0 < y then π / 2
  else if x = 0 ∧ y < 0 then -(π / 2)
  else 0

/-- Truncation toward zero, as used by the JS `%` operator. -/
def jsTrunc (x : ℝ) : ℤ := if 0 ≤ x then ⌊x⌋ else -⌊-x⌋

/-- The JS remainder operator `a % b` on finite numbers with `b ≠ 0`
(the one use below has `b = 360`). -/
def jsFmod (a b : ℝ) : ℝ := a - b * jsTrunc (a / b)

/-- A `{lat, lng}` object in degrees. -/
structure GeoPoint where
  lat : ℝ
  lng : ℝ

/-- Function `distanceMeters` (both variants, App.js lines 38–50): haversine
great-circle distance on a sphere of radius 6,371,000 m. -/
def distanceMeters (a b : GeoPoint) : ℝ :=
  let R : ℝ := 6371000
  let x1 := a.lat * π / 180
  let x2 := b.lat * π / 180
  let dx := (b.lat - a.lat) * π / 180
  let dy := (b.lng - a.lng) * π / 180
  let s1 := Real.sin (dx / 2)
  let s2 := Real.sin (dy / 2)
  let aa := s1 * s1 + Real.cos x1 * Real.cos x2 * (s2 * s2)
  let c := 2 * atan2 (Real.sqrt aa) (Real.sqrt (1 - aa))
  R * c

/-- Function `bearingBetween` (both variants, App.js lines 52–64): initial bearing
from `a` to `b` in degrees, normalized into `[0, 360)` by `(θ+360)%360`. -/
def bearingBetween (a b : GeoPoint) : ℝ :=
  let x1 := a.lat * π / 180
  let x2 := b.lat * π / 180
  let y1 := a.lng * π / 180
  let y2 := b.lng * π / 180
  let y := Real.sin (y2 - y1) * Real.cos x2
  let x := Real.cos x1 * Real.sin x2 - Real.sin x1 * Real.cos x2 * Real.cos (y2 - y1)
  jsFmod (atan2 y x * 180 / π + 360) 360

/-- Function `fresnelRadius` (App.js lines 66–69, part_000 lines 71–74). -/
def fresnelRadius (lambda d1 d2 : ℝ) : ℝ :=
  if d1 + d2 = 0 then 0 else Real.sqrt (lambda * d1 * d2 / (d1 + d2))

/-- Function `computeSimpleFresnel` (both variants): midpoint first-Fresnel-zone
radius for the approximate speed of light `3e8`, paired with the total
path distance. -/
def computeSimpleFresnel (a b : GeoPoint) (freqHz : ℝ) : ℝ × ℝ :=
  let d := distanceMeters a b
  let lambda := 300000000 / freqHz
  (d, fresnelRadius lambda (d / 2) (d / 2))

/-- Function `destPoint` (nested in both `generateFresnelEllipse` variants,
textually identical in the two files): direct geodesic projection of a
point by a bearing and a distance in metres. -/
def destPoint (lat lon bearingDeg dist : ℝ) : ℝ × ℝ :=
  let R : ℝ := 6371000
  let b := bearingDeg * π / 180
  let x1 := lat * π / 180
  let y1 := lon * π / 180
  let d := dist / R
  let x2 := Real.arcsin (Real.sin x1 * Real.cos d + Real.cos x1 * Real.sin d * Real.cos b)
  let y2 := y1 + atan2 (Real.sin b * Real.sin d * Real.cos x1)
                       (Real.cos d - Real.sin x1 * Real.sin x2)
  (x2 * 180 / π, y2 * 180 / π)

/-- Function `generateFresnelEllipse` of the part_000 variant (lines 84–146):
semi-major axis `distance/2`, semi-minor axis the given radius in
metres, sampled at `steps+1` angles by the double geodesic projection
along the path bearing and perpendicular to it. -/
def generateFresnelEllipse (lat1 lon1 lat2 lon2 rMidMeters : ℝ) (steps : ℕ) : List (ℝ × ℝ) :=
  let d := distanceMeters ⟨lat1, lon1⟩ ⟨lat2, lon2⟩
  let semiMajor := d / 2
  let semiMinor := rMidMeters
  let bearing := bearingBetween ⟨lat1, lon1⟩ ⟨lat2, lon2⟩
  let centerLat := (lat1 + lat2) / 2
  let centerLon := (lon1 + lon2) / 2
  (List.range (steps + 1)).map (fun (i : ℕ) =>
    let θ := ((i : ℝ) / (steps : ℝ)) * 2 * π
    let x := semiMajor * Real.cos θ
    let y := semiMinor * Real.sin θ
    let p1 := destPoint centerLat centerLon bearing x
    destPoint p1.1 p1.2 (bearing + 90) y)

/-- Function `generateFresnelEllipse` of the App variant (App.js lines 79–135):
the same sampler, except that the semi-major axis is additionally
divided by 2000 and the semi-minor axis by 50 (the "FIX #1" comment in
the source). -/
def appGenerateFresnelEllipse (lat1 lon1 lat2 lon2 rMid : ℝ) (steps : ℕ) : List (ℝ × ℝ) :=
  let totalDist := distanceMeters ⟨lat1, lon1⟩ ⟨lat2, lon2⟩
  let semiMajor := totalDist / 2 / 2000
  let semiMinor := rMid / 50
  let bearing := bearingBetween ⟨lat1, lon1⟩ ⟨lat2, lon2⟩
  let centerLat := (lat1 + lat2) / 2
  let centerLon := (lon1 + lon2) / 2
  (List.range (steps + 1)).map (fun (i : ℕ) =>
    let θ := ((i : ℝ) / (steps : ℝ)) * 2 * π
    let x := semiMajor * Real.cos θ
    let y := semiMinor * Real.sin θ
    let p1 := destPoint centerLat centerLon bearing x
    destPoint p1.1 p1.2 (bearing + 90) y)

/-- Modelled from the spec: the ellipse sampling formula of §4.3 for
explicitly given axes — for sample index `i` in `[0, steps]`, the point
`destinationPoint(destinationPoint(center, bearing, semiMajor·cos((i/steps)·2π)),
bearing+90, semiMinor·sin((i/steps)·2π))`, with `center` the degree-wise
arithmetic midpoint.  Used to compare each code variant's axis choice
against the specified one. -/
def specEllipseAxes (lat1 lon1 lat2 lon2 semiMajor semiMinor : ℝ) (steps : ℕ) :
    List (ℝ × ℝ) :=
  let bearing := bearingBetween ⟨lat1, lon1⟩ ⟨lat2, lon2⟩
  let centerLat := (lat1 + lat2) / 2
  let centerLon := (lon1 + lon2) / 2
  (List.range (steps + 1)).map (fun (i : ℕ) =>
    let θ := ((i : ℝ) / (steps : ℝ)) * 2 * π
    let x := semiMajor * Real.cos θ
    let y := semiMinor * Real.sin θ
    let p1 := destPoint centerLat centerLon bearing x
    destPoint p1.1 p1.2 (bearing + 90) y)

/-- Modelled from the spec: the full ellipse sampler of §4.3, with
`semiMajor = distance(a,b)/2` and `semiMinor = radiusMeters` unscaled. -/
def specEllipsePoints (lat1 lon1 lat2 lon2 r : ℝ) (steps : ℕ) : List (ℝ × ℝ) :=
  specEllipseAxes lat1 lon1 lat2 lon2
    (distanceMeters ⟨lat1, lon1⟩ ⟨lat2, lon2⟩ / 2) r steps

end

/-! ## Claim C9: removing a tower cascades to its links -/

/-- Claim C9: for every tower id, after `removeTower id` no tower with
that id remains and no remaining link has that id as either endpoint
(`removeTower` filters both arrays in the same operation).  Proved for
every store state and id, which covers in particular every id present in
the store. -/
theorem removeTower_cascades_links (s : PlannerState) (id : Nat) :
    ((removeTower s id).towers.all (fun t => t.id != id) = true) ∧
    ((removeTower s id).links.all (fun l => l.aId != id && l.bId != id) = true) := by
  constructor <;>
  · rw [List.all_eq_true]
    intro x hx
    exact (List.mem_filter.1 hx).2

/-! ## Claim C1: tower-id allocation -/

/-- Claim C1 (failing input): `addTower` derives ids as
`max(existing ids) + 1` rather than from a monotonic counter, so the id
freed by deleting the highest-id tower IS reassigned: starting from the
empty store, two `addTower` calls assign ids 1 and 2, `removeTower 2`
frees id 2, and the very next `addTower` assigns id 2 again. -/
theorem addTower_reuses_freed_id :
    ((addTower (addTower initialState q0 q0) q0 q0).towers.map (fun t => t.id) = [1, 2]) ∧
    ((removeTower (addTower (addTower initialState q0 q0) q0 q0) 2).towers.map
      (fun t => t.id) = [1]) ∧
    ((addTower (removeTower (addTower (addTower initialState q0 q0) q0 q0) 2) q0 q0).towers.map
      (fun t => t.id) = [1, 2]) := by
  decide

/-! ## Claim C8: the Fresnel radius formula and its degenerate case -/

/-- Claim C8: `fresnelRadius` is `sqrt(lambda*d1*d2/(d1+d2))` whenever
`d1+d2` is nonzero and exactly 0 when `d1+d2 = 0`; the degenerate case
is an explicit guard in the code, not an error. -/
theorem fresnelRadius_defining_equation (lambda d1 d2 : ℝ) :
    (d1 + d2 = 0 → fresnelRadius lambda d1 d2 = 0) ∧
    (d1 + d2 ≠ 0 →
      fresnelRadius lambda d1 d2 = Real.sqrt (lambda * d1 * d2 / (d1 + d2))) := by
  constructor
  · intro h
    rw [fresnelRadius, if_pos h]
  · intro h
    rw [fresnelRadius, if_neg h]

/-- Witness for C8 at concrete inputs: the coincident-endpoint case
`d1 = 1, d2 = -1` yields 0, and `d1 = 3, d2 = 5` yields the square-root
formula. -/
theorem fresnelRadius_defining_equation_witness :
    ((1 : ℝ) + (-1) = 0 ∧ fresnelRadius 2 1 (-1) = 0) ∧
    ((3 : ℝ) + 5 ≠ 0 ∧ fresnelRadius 2 3 5 = Real.sqrt (2 * 3 * 5 / (3 + 5))) :=
  ⟨⟨by norm_num, (fresnelRadius_defining_equation 2 1 (-1)).1 (by norm_num)⟩,
   ⟨by norm_num, (fresnelRadius_defining_equation 2 3 5).2 (by norm_num)⟩⟩

/-! ## Claim C10: `createLink` is atomic on failure -/

/-- The success condition of the part_000 `createLink`: distinct ids,
both towers resolve, frequencies compatible, no duplicate. -/
def createLinkOk (s : PlannerState) (aId bId : Nat) : Bool :=
  !(aId == bId) &&
  (match s.towers.find? (fun t => t.id == aId), s.towers.find? (fun t => t.id == bId) with
   | some a, some b => canLink a b && !(s.links.any (dupLinkTest aId bId))
   | _, _ => false)

/-- The success condition of the App-variant `createLink`. -/
def appCreateLinkOk (s : PlannerState) (aId bId : Nat) : Bool :=
  !(aId == bId) &&
  (match s.towers.find? (fun t => t.id == aId), s.towers.find? (fun t => t.id == bId) with
   | some a, some b =>
     jsNumEq (parseFreqHz a.freqStr) (parseFreqHz b.freqStr) &&
       !(s.links.any (dupLinkTest aId bId))
   | _, _ => false)

/-- Claim C10: on every rejected `createLink` call — in either variant —
the towers array, the links array and the link-id counter are exactly as
before; only the status message may change.  (The success path is the
only one that touches them.) -/
theorem createLink_failure_atomicity (s : PlannerState) (aId bId : Nat) :
    (createLinkOk s aId bId = false →
      (createLink s aId bId).2.towers = s.towers ∧
      (createLink s aId bId).2.links = s.links ∧
      (createLink s aId bId).2.linkId = s.linkId) ∧
    (appCreateLinkOk s aId bId = false →
      (appCreateLink s aId bId).2.towers = s.towers ∧
      (appCreateLink s aId bId).2.links = s.links ∧
      (appCreateLink s aId bId).2.linkId = s.linkId) := by
  constructor
  · intro h
    by_cases hab : aId = bId
    · simp [createLink, hab]
    · rw [createLinkOk] at h
      rw [createLink, if_neg hab]
      have hab' : (aId == bId) = false := by simp [hab]
      rcases hfa : s.towers.find? (fun t => t.id == aId) with _ | a <;>
        rcases hfb : s.towers.find? (fun t => t.id == bId) with _ | b <;>
        rw [hfa, hfb] at h ⊢
      · exact ⟨rfl, rfl, rfl⟩
      · exact ⟨rfl, rfl, rfl⟩
      · exact ⟨rfl, rfl, rfl⟩
      · rw [hab'] at h
        simp only [Bool.not_false, Bool.true_and] at h
        cases h1 : canLink a b
        · simp [h1]
        · cases h2 : s.links.any (dupLinkTest aId bId)
          · rw [h1, h2] at h
            simp at h
          · simp [h1, h2]
  · intro h
    by_cases hab : aId = bId
    · simp [appCreateLink, hab]
    · rw [appCreateLinkOk] at h
      rw [appCreateLink, if_neg hab]
      have hab' : (aId == bId) = false := by simp [hab]
      rcases hfa : s.towers.find? (fun t => t.id == aId) with _ | a <;>
        rcases hfb : s.towers.find? (fun t => t.id == bId) with _ | b <;>
        rw [hfa, hfb] at h ⊢
      · exact ⟨rfl, rfl, rfl⟩
      · exact ⟨rfl, rfl, rfl⟩
      · exact ⟨rfl, rfl, rfl⟩
      · rw [hab'] at h
        simp only [Bool.not_false, Bool.true_and] at h
        cases h1 : jsNumEq (parseFreqHz a.freqStr) (parseFreqHz b.freqStr)
        · simp [h1]
        · cases h2 : s.links.any (dupLinkTest aId bId)
          · rw [h1, h2] at h
            simp at h
          · simp [h1, h2]

/-- Witness for C10: the self-link rejection on the empty store leaves
the links array untouched, in both variants. -/
theorem createLink_failure_atomicity_witness :
    (createLinkOk initialState 1 1 = false ∧
      (createLink initialState 1 1).2.links = initialState.links) ∧
    (appCreateLinkOk initialState 1 1 = false ∧
      (appCreateLink initialState 1 1).2.links = initialState.links) :=
  ⟨⟨by decide, ((createLink_failure_atomicity initialState 1 1).1 (by decide)).2.1⟩,
   ⟨by decide, ((createLink_failure_atomicity initialState 1 1).2 (by decide)).2.1⟩⟩

/-! ## Claim C3: `createLink` rejection classification -/

/-- Modelled from the spec: the classified outcomes `SELF_LINK`,
`MISSING_TOWER`, `FREQUENCY_MISMATCH`, `DUPLICATE_LINK` of §4.4/§7, and
a success outcome carrying the created link. -/
inductive CreateLinkOutcome where
  | selfLink
  | missingTower
  | freqMismatch
  | duplicateLink
  | created (l : Link)
deriving DecidableEq

/-- Modelled from the spec: `createLink` as §4.4 describes it — the same
branch structure as the code, but returning the classified outcome (and
leaving user-facing messaging to the caller, so rejections do not touch
the state). -/
def specCreateLink (s : PlannerState) (aId bId : Nat) : CreateLinkOutcome × PlannerState :=
  if aId = bId then (.selfLink, s)
  else
    match s.towers.find? (fun t => t.id == aId), s.towers.find? (fun t => t.id == bId) with
    | some a, some b =>
      if !canLink a b then (.freqMismatch, s)
      else if s.links.any (dupLinkTest aId bId) then (.duplicateLink, s)
      else (.created ⟨s.linkId, aId, bId, a.freqStr⟩,
            { s with linkId := s.linkId + 1
                     links := s.links ++ [⟨s.linkId, aId, bId, a.freqStr⟩] })
    | _, _ => (.missingTower, s)

/-- The two-tower store used as a concrete test state: ids 1 and 2, both
at the default frequency `"5 GHz"`. -/
def twoTowerState : PlannerState := addTower (addTower initialState q0 q0) q0 q0

/-- Claim C3 (counterexample): `createLink` does not return a classified
rejection value, nor the created link — every path returns `undefined`
(modelled as `none`).  On the two-tower store the call `createLink 1 2`
succeeds (the links array changes, and the spec-modelled classification
is `created`), yet the returned value is `none`; the self-link call
`createLink 1 1` likewise returns `none` rather than a `SELF_LINK`
value. -/
theorem createLink_returns_no_value :
    ((createLink twoTowerState 1 2).1 = none ∧
      (specCreateLink twoTowerState 1 2).1 = CreateLinkOutcome.created ⟨1, 1, 2, "5 GHz"⟩ ∧
      (createLink twoTowerState 1 2).2.links ≠ twoTowerState.links) ∧
    ((createLink twoTowerState 1 1).1 = none ∧
      (specCreateLink twoTowerState 1 1).1 = CreateLinkOutcome.selfLink) := by
  decide

/-- Claim C3 as amended: `createLink` classifies every call into the four
rejection cases and the success case with exactly the claimed conditions
(self link, absent endpoint id, incompatible frequencies, duplicate
unordered pair in either orientation) and never throws, and its store
effect on towers/links/linkId agrees with the spec-modelled classified
version; but it communicates no outcome value — it returns `undefined`
(`none`) on every path, rejections being signalled only by silent return
or the status message. -/
theorem createLink_classified_branches (s : PlannerState) (aId bId : Nat) :
    (createLink s aId bId).1 = none ∧
    (createLink s aId bId).2.towers = (specCreateLink s aId bId).2.towers ∧
    (createLink s aId bId).2.links = (specCreateLink s aId bId).2.links ∧
    (createLink s aId bId).2.linkId = (specCreateLink s aId bId).2.linkId ∧
    ((specCreateLink s aId bId).1 = CreateLinkOutcome.selfLink ↔ aId = bId) ∧
    ((specCreateLink s aId bId).1 = CreateLinkOutcome.missingTower ↔
      aId ≠ bId ∧ (s.towers.find? (fun t => t.id == aId) = none ∨
        s.towers.find? (fun t => t.id == bId) = none)) ∧
    ((specCreateLink s aId bId).1 = CreateLinkOutcome.freqMismatch ↔
      aId ≠ bId ∧ ∃ a b, s.towers.find? (fun t => t.id == aId) = some a ∧
        s.towers.find? (fun t => t.id == bId) = some b ∧ canLink a b = false) ∧
    ((specCreateLink s aId bId).1 = CreateLinkOutcome.duplicateLink ↔
      aId ≠ bId ∧ ∃ a b, s.towers.find? (fun t => t.id == aId) = some a ∧
        s.towers.find? (fun t => t.id == bId) = some b ∧ canLink a b = true ∧
        s.links.any (dupLinkTest aId bId) = true) := by
  by_cases hab : aId = bId
  · simp [createLink, specCreateLink, hab]
  · rw [createLink, specCreateLink, if_neg hab, if_neg hab]
    rcases hfa : s.towers.find? (fun t => t.id == aId) with _ | a <;>
      rcases hfb : s.towers.find? (fun t => t.id == bId) with _ | b
    · simp [hab, hfa, hfb]
    · simp [hab, hfa, hfb]
    · simp [hab, hfa, hfb]
    · cases h1 : canLink a b
      · simp [hab, hfa, hfb, h1]
      · cases h2 : s.links.any (dupLinkTest aId bId)
        · simp [hab, hfa, hfb, h1, h2]
        · simp [hab, hfa, hfb, h1, h2]

/-! ## Claims C2 and C5: the frequency criterion and the update frame -/

/-- Appending one element changes a list. -/
theorem append_singleton_ne {α : Type} (l : List α) (x : α) : l ++ [x] ≠ l := by
  intro h
  have := congrArg List.length h
  simp at this

/-- The cross-multiplied strict comparison is the negation of the
reversed non-strict one. -/
theorem JsNum.lt_eq_not_le (a b : JsNum) : JsNum.lt a b = !JsNum.le b a := by
  rw [JsNum.lt, JsNum.le, ← decide_not, decide_eq_decide]
  exact not_le.symm

/-- Both endpoint ids resolve in the given towers array and the resolved
towers pass `canLink` — the link-validity notion of the part_000
variant. -/
def resolvedCanLink (ts : List Tower) (aId bId : Nat) : Bool :=
  match ts.find? (fun t => t.id == aId), ts.find? (fun t => t.id == bId) with
  | some a, some b => canLink a b
  | _, _ => false

/-- Both endpoint ids resolve and the parsed frequencies are strictly
equal — the link-validity notion of the App variant. -/
def resolvedStrictEq (ts : List Tower) (aId bId : Nat) : Bool :=
  match ts.find? (fun t => t.id == aId), ts.find? (fun t => t.id == bId) with
  | some a, some b => jsNumEq (parseFreqHz a.freqStr) (parseFreqHz b.freqStr)
  | _, _ => false

/-- The towers array after `updateTower` is the id-preserving patch map. -/
theorem updateTower_towers (s : PlannerState) (id : Nat) (patch : TowerPatch) :
    (updateTower s id patch).towers =
      s.towers.map (fun t => if t.id = id then applyPatch t patch else t) := rfl

/-- The towers array after the App variant's `updateTower`. -/
theorem appUpdateTower_towers (s : PlannerState) (id : Nat) (patch : TowerPatch) :
    (appUpdateTower s id patch).towers =
      s.towers.map (fun t => if t.id = id then applyPatch t patch else t) := rfl

/-- Looking an id up among patched towers finds the patched version of
exactly the tower found before patching (the patch cannot change ids). -/
theorem find?_patched (ts : List Tower) (id : Nat) (p : TowerPatch) (k : Nat) :
    (ts.map (fun t => if t.id = id then applyPatch t p else t)).find? (fun t => t.id == k)
      = (ts.find? (fun t => t.id == k)).map
          (fun t => if t.id = id then applyPatch t p else t) := by
  have hp : ((fun t => t.id == k) ∘ (fun t => if t.id = id then applyPatch t p else t))
      = (fun t : Tower => t.id == k) := by
    funext t
    by_cases h : t.id = id
    · simp [h, applyPatch]
    · simp [h]
  rw [List.find?_map, hp]

/-- Looking up an id other than the patched one is unaffected by the
patch. -/
theorem find?_patched_nonincident (ts : List Tower) (id : Nat) (p : TowerPatch) (k : Nat)
    (hk : k ≠ id) :
    (ts.map (fun t => if t.id = id then applyPatch t p else t)).find? (fun t => t.id == k)
      = ts.find? (fun t => t.id == k) := by
  rcases hf : ts.find? (fun t => t.id == k) with _ | t
  · rw [find?_patched, hf]
    rfl
  · rw [find?_patched, hf]
    have ht : t.id = k := by simpa using List.find?_some hf
    simp [ht, hk]

theorem resolvedCanLink_patched_nonincident (ts : List Tower) (id : Nat) (p : TowerPatch)
    (k1 k2 : Nat) (h1 : k1 ≠ id) (h2 : k2 ≠ id) :
    resolvedCanLink (ts.map (fun t => if t.id = id then applyPatch t p else t)) k1 k2
      = resolvedCanLink ts k1 k2 := by
  rw [resolvedCanLink, resolvedCanLink, find?_patched_nonincident _ _ _ _ h1,
    find?_patched_nonincident _ _ _ _ h2]

theorem resolvedStrictEq_patched_nonincident (ts : List Tower) (id : Nat) (p : TowerPatch)
    (k1 k2 : Nat) (h1 : k1 ≠ id) (h2 : k2 ≠ id) :
    resolvedStrictEq (ts.map (fun t => if t.id = id then applyPatch t p else t)) k1 k2
      = resolvedStrictEq ts k1 k2 := by
  rw [resolvedStrictEq, resolvedStrictEq, find?_patched_nonincident _ _ _ _ h1,
    find?_patched_nonincident _ _ _ _ h2]

/-- The link filter body of the part_000 `updateTower` keeps exactly the
links that are `resolvedCanLink`-valid against the given towers. -/
theorem updateTowerBody_eq_some (ts : List Tower) (lnk l : Link) :
    (match ts.find? (fun t => t.id == lnk.aId), ts.find? (fun t => t.id == lnk.bId) with
     | some a, some b =>
       match parseFreqHz a.freqStr, parseFreqHz b.freqStr with
       | some fa, some fb =>
         if JsNum.lt (JsNum.mul relTol (JsNum.max fa fb)) (JsNum.abs (JsNum.sub fa fb)) then
           none
         else some lnk
       | _, _ => none
     | _, _ => none) = some l ↔
      (lnk = l ∧ resolvedCanLink ts lnk.aId lnk.bId = true) := by
  rcases hfa : ts.find? (fun t => t.id == lnk.aId) with _ | a <;>
    rcases hfb : ts.find? (fun t => t.id == lnk.bId) with _ | b <;>
    simp only [resolvedCanLink, hfa, hfb]
  · simp
  · simp
  · simp
  · rw [canLink]
    rcases hpa : parseFreqHz a.freqStr with _ | fa <;>
      rcases hpb : parseFreqHz b.freqStr with _ | fb <;> simp only [hpa, hpb]
    · simp
    · simp
    · simp
    · rw [JsNum.lt_eq_not_le]
      cases hle : JsNum.le (JsNum.abs (JsNum.sub fa fb)) (JsNum.mul relTol (JsNum.max fa fb))
      · simp
      · simp

/-- The link filter body of the App `updateTower` keeps exactly the links
that are `resolvedStrictEq`-valid against the given towers. -/
theorem appUpdateTowerBody_eq_some (ts : List Tower) (lnk l : Link) :
    (match ts.find? (fun t => t.id == lnk.aId), ts.find? (fun t => t.id == lnk.bId) with
     | some a, some b =>
       if jsNumEq (parseFreqHz a.freqStr) (parseFreqHz b.freqStr) then some lnk else none
     | _, _ => none) = some l ↔
      (lnk = l ∧ resolvedStrictEq ts lnk.aId lnk.bId = true) := by
  rcases hfa : ts.find? (fun t => t.id == lnk.aId) with _ | a <;>
    rcases hfb : ts.find? (fun t => t.id == lnk.bId) with _ | b <;>
    simp only [resolvedStrictEq, hfa, hfb]
  · simp
  · simp
  · simp
  · cases he : jsNumEq (parseFreqHz a.freqStr) (parseFreqHz b.freqStr)
    · simp
    · simp

/-- Membership in the links array after the part_000 `updateTower`. -/
theorem mem_updateTower_links (s : PlannerState) (id : Nat) (patch : TowerPatch) (l : Link) :
    l ∈ (updateTower s id patch).links ↔
      l ∈ s.links ∧ resolvedCanLink ((updateTower s id patch).towers) l.aId l.bId = true := by
  rw [updateTower]
  simp only [List.mem_filterMap]
  constructor
  · rintro ⟨lnk, hmem, hbody⟩
    rcases (updateTowerBody_eq_some _ _ _).1 hbody with ⟨rfl, hok⟩
    exact ⟨hmem, hok⟩
  · rintro ⟨hmem, hok⟩
    exact ⟨l, hmem, (updateTowerBody_eq_some _ _ _).2 ⟨rfl, hok⟩⟩

/-- Membership in the links array after the App `updateTower`. -/
theorem mem_appUpdateTower_links (s : PlannerState) (id : Nat) (patch : TowerPatch) (l : Link) :
    l ∈ (appUpdateTower s id patch).links ↔
      l ∈ s.links ∧ resolvedStrictEq ((appUpdateTower s id patch).towers) l.aId l.bId = true := by
  rw [appUpdateTower]
  simp only [List.mem_filterMap]
  constructor
  · rintro ⟨lnk, hmem, hbody⟩
    rcases (appUpdateTowerBody_eq_some _ _ _).1 hbody with ⟨rfl, hok⟩
    exact ⟨hmem, hok⟩
  · rintro ⟨hmem, hok⟩
    exact ⟨l, hmem, (appUpdateTowerBody_eq_some _ _ _).2 ⟨rfl, hok⟩⟩

/-- Claim C5: in a store whose links are all valid (both endpoints
resolve and their frequencies match — invariant 4), an `updateTower`
call removes exactly the incident links whose frequencies no longer
match.  Conjuncts, for each variant with its own matching notion:
every link not incident to the patched id survives unchanged; every
link (incident or not) whose endpoints still match after the patch
survives; every link whose endpoints no longer match is removed; and no
link is ever added. -/
theorem updateTower_frame_effect (s : PlannerState) (id : Nat) (patch : TowerPatch)
    (hInv : ∀ l ∈ s.links, resolvedCanLink s.towers l.aId l.bId = true)
    (hInvApp : ∀ l ∈ s.links, resolvedStrictEq s.towers l.aId l.bId = true) :
    ((∀ l ∈ s.links, l.aId ≠ id → l.bId ≠ id → l ∈ (updateTower s id patch).links) ∧
     (∀ l ∈ s.links,
       resolvedCanLink ((updateTower s id patch).towers) l.aId l.bId = true →
         l ∈ (updateTower s id patch).links) ∧
     (∀ l ∈ s.links,
       resolvedCanLink ((updateTower s id patch).towers) l.aId l.bId = false →
         l ∉ (updateTower s id patch).links) ∧
     (∀ l ∈ (updateTower s id patch).links, l ∈ s.links)) ∧
    ((∀ l ∈ s.links, l.aId ≠ id → l.bId ≠ id → l ∈ (appUpdateTower s id patch).links) ∧
     (∀ l ∈ s.links,
       resolvedStrictEq ((appUpdateTower s id patch).towers) l.aId l.bId = true →
         l ∈ (appUpdateTower s id patch).links) ∧
     (∀ l ∈ s.links,
       resolvedStrictEq ((appUpdateTower s id patch).towers) l.aId l.bId = false →
         l ∉ (appUpdateTower s id patch).links) ∧
     (∀ l ∈ (appUpdateTower s id patch).links, l ∈ s.links)) := by
  constructor
  · refine ⟨?_, ?_, ?_, ?_⟩
    · intro l hl ha hb
      rw [mem_updateTower_links]
      refine ⟨hl, ?_⟩
      rw [updateTower_towers, resolvedCanLink_patched_nonincident _ _ _ _ _ ha hb]
      exact hInv l hl
    · intro l hl h
      exact (mem_updateTower_links s id patch l).2 ⟨hl, h⟩
    · intro l _ h hmem
      have h' := ((mem_updateTower_links s id patch l).1 hmem).2
      rw [h] at h'
      cases h'
    · intro l hl
      exact ((mem_updateTower_links s id patch l).1 hl).1
  · refine ⟨?_, ?_, ?_, ?_⟩
    · intro l hl ha hb
      rw [mem_appUpdateTower_links]
      refine ⟨hl, ?_⟩
      rw [appUpdateTower_towers, resolvedStrictEq_patched_nonincident _ _ _ _ _ ha hb]
      exact hInvApp l hl
    · intro l hl h
      exact (mem_appUpdateTower_links s id patch l).2 ⟨hl, h⟩
    · intro l _ h hmem
      have h' := ((mem_appUpdateTower_links s id patch l).1 hmem).2
      rw [h] at h'
      cases h'
    · intro l hl
      exact ((mem_appUpdateTower_links s id patch l).1 hl).1

/-- Three towers, all at `"5 GHz"`, with links 1–2 and 2–3: the concrete
store for the C5 witness. -/
def threeLinkState : PlannerState :=
  { towers := [⟨1, q0, q0, "5 GHz"⟩, ⟨2, q0, q0, "5 GHz"⟩, ⟨3, q0, q0, "5 GHz"⟩]
    links := [⟨1, 1, 2, "5 GHz"⟩, ⟨2, 2, 3, "5 GHz"⟩]
    selectedTower := none, selectedLink := none, message := "", linkId := 3 }

/-- A patch setting the frequency string to `"2 GHz"`. -/
def freqPatch : TowerPatch := ⟨none, none, some "2 GHz"⟩

/-- Witness for C5: on the concrete three-tower store (which satisfies
both invariants), retuning tower 1 to 2 GHz keeps the non-incident link
2–3. -/
theorem updateTower_frame_effect_witness :
    ((∀ l ∈ threeLinkState.links, resolvedCanLink threeLinkState.towers l.aId l.bId = true) ∧
     (∀ l ∈ threeLinkState.links, resolvedStrictEq threeLinkState.towers l.aId l.bId = true)) ∧
    (⟨2, 2, 3, "5 GHz"⟩ : Link) ∈ (updateTower threeLinkState 1 freqPatch).links :=
  ⟨⟨by decide, by decide⟩,
   (updateTower_frame_effect threeLinkState 1 freqPatch (by decide) (by decide)).1.1
     ⟨2, 2, 3, "5 GHz"⟩ (by decide) (by decide) (by decide)⟩

/-- The part_000 compatibility test, read through `toRat`: both strings
parse and the values agree within a relative `1e-6` of the larger. -/
theorem canLink_iff_toRat (a b : Tower) :
    canLink a b = true ↔
      ∃ fa fb, parseFreqHz a.freqStr = some fa ∧ parseFreqHz b.freqStr = some fb ∧
        |fa.toRat - fb.toRat| ≤ 1 / 1000000 * Max.max fa.toRat fb.toRat := by
  rw [canLink]
  rcases hpa : parseFreqHz a.freqStr with _ | fa
  · simp [hpa]
  · rcases hpb : parseFreqHz b.freqStr with _ | fb
    · simp [hpa, hpb]
    · have dpa := parseFreqHz_den_pos hpa
      have dpb := parseFreqHz_den_pos hpb
      have habs : 0 < (JsNum.abs (JsNum.sub fa fb)).den := by
        simp only [JsNum.abs, JsNum.sub]
        exact Nat.mul_pos dpa dpb
      have hmax : 0 < (JsNum.max fa fb).den := by
        rcases JsNum.max_den fa fb with h | h <;> rw [h] <;> assumption
      have hmul : 0 < (JsNum.mul relTol (JsNum.max fa fb)).den := by
        simp only [JsNum.mul, relTol]
        exact Nat.mul_pos (by norm_num) hmax
      have hrt : relTol.toRat = 1 / 1000000 := by norm_num [relTol, JsNum.toRat]
      dsimp only
      rw [JsNum.le_iff habs hmul, JsNum.abs_toRat, JsNum.sub_toRat dpa dpb,
        JsNum.mul_toRat, JsNum.max_toRat dpa dpb, hrt]
      constructor
      · intro h
        exact ⟨fa, fb, rfl, rfl, h⟩
      · rintro ⟨fa', fb', h1, h2, h⟩
        obtain rfl : fa = fa' := Option.some.inj h1
        obtain rfl : fb = fb' := Option.some.inj h2
        exact h

/-- The App compatibility test, read through `toRat`: both strings parse
and the values are equal. -/
theorem jsNumEq_parse_iff_toRat (a b : Tower) :
    jsNumEq (parseFreqHz a.freqStr) (parseFreqHz b.freqStr) = true ↔
      ∃ fa fb, parseFreqHz a.freqStr = some fa ∧ parseFreqHz b.freqStr = some fb ∧
        fa.toRat = fb.toRat := by
  rcases hpa : parseFreqHz a.freqStr with _ | fa
  · simp [hpa, jsNumEq]
  · rcases hpb : parseFreqHz b.freqStr with _ | fb
    · simp [hpa, hpb, jsNumEq]
    · have dpa := parseFreqHz_den_pos hpa
      have dpb := parseFreqHz_den_pos hpb
      rw [jsNumEq_iff dpa dpb]
      constructor
      · intro h
        exact ⟨fa, fb, rfl, rfl, h⟩
      · rintro ⟨fa', fb', h1, h2, h⟩
        obtain rfl : fa = fa' := Option.some.inj h1
        obtain rfl : fb = fb' := Option.some.inj h2
        exact h

/-- The part_000 `createLink` mutates the links array exactly when all
its checks pass, with `canLink` as the frequency criterion. -/
theorem createLink_changes_links_iff (s : PlannerState) (aId bId : Nat) :
    (createLink s aId bId).2.links ≠ s.links ↔
      (aId ≠ bId ∧ resolvedCanLink s.towers aId bId = true ∧
        s.links.any (dupLinkTest aId bId) = false) := by
  by_cases hab : aId = bId
  · simp [createLink, hab]
  · rw [createLink, if_neg hab, resolvedCanLink]
    rcases hfa : s.towers.find? (fun t => t.id == aId) with _ | a <;>
      rcases hfb : s.towers.find? (fun t => t.id == bId) with _ | b <;>
      rw [hfa, hfb]
    · simp
    · simp
    · simp
    · cases h1 : canLink a b
      · simp [h1]
      · cases h2 : s.links.any (dupLinkTest aId bId)
        · simp [h1, h2, hab, append_singleton_ne]
        · simp [h1, h2]

/-- The App `createLink` mutates the links array exactly when all its
checks pass, with strict parsed equality as the frequency criterion. -/
theorem appCreateLink_changes_links_iff (s : PlannerState) (aId bId : Nat) :
    (appCreateLink s aId bId).2.links ≠ s.links ↔
      (aId ≠ bId ∧ resolvedStrictEq s.towers aId bId = true ∧
        s.links.any (dupLinkTest aId bId) = false) := by
  by_cases hab : aId = bId
  · simp [appCreateLink, hab]
  · rw [appCreateLink, if_neg hab, resolvedStrictEq]
    rcases hfa : s.towers.find? (fun t => t.id == aId) with _ | a <;>
      rcases hfb : s.towers.find? (fun t => t.id == bId) with _ | b <;>
      rw [hfa, hfb]
    · simp
    · simp
    · simp
    · cases h1 : jsNumEq (parseFreqHz a.freqStr) (parseFreqHz b.freqStr)
      · simp [h1]
      · cases h2 : s.links.any (dupLinkTest aId bId)
        · simp [h1, h2, hab, append_singleton_ne]
        · simp [h1, h2]

/-- Claim C2 as amended: the relative-tolerance criterion
(`|fa-fb| ≤ 1e-6·max(fa,fb)`, failing on NaN) governs both `createLink`
(through `canLink`) and `updateTower` in the part_000 variant; the App
variant instead applies strict equality of the parsed values in both
places. -/
theorem freqTolerance_criterion_by_variant :
    (∀ a b : Tower, canLink a b = true ↔
      ∃ fa fb, parseFreqHz a.freqStr = some fa ∧ parseFreqHz b.freqStr = some fb ∧
        |fa.toRat - fb.toRat| ≤ 1 / 1000000 * Max.max fa.toRat fb.toRat) ∧
    (∀ (s : PlannerState) (id : Nat) (patch : TowerPatch) (l : Link),
      l ∈ (updateTower s id patch).links ↔
        l ∈ s.links ∧ resolvedCanLink ((updateTower s id patch).towers) l.aId l.bId = true) ∧
    (∀ (s : PlannerState) (aId bId : Nat),
      (createLink s aId bId).2.links ≠ s.links ↔
        (aId ≠ bId ∧ resolvedCanLink s.towers aId bId = true ∧
          s.links.any (dupLinkTest aId bId) = false)) ∧
    (∀ a b : Tower, jsNumEq (parseFreqHz a.freqStr) (parseFreqHz b.freqStr) = true ↔
      ∃ fa fb, parseFreqHz a.freqStr = some fa ∧ parseFreqHz b.freqStr = some fb ∧
        fa.toRat = fb.toRat) ∧
    (∀ (s : PlannerState) (id : Nat) (patch : TowerPatch) (l : Link),
      l ∈ (appUpdateTower s id patch).links ↔
        l ∈ s.links ∧ resolvedStrictEq ((appUpdateTower s id patch).towers) l.aId l.bId = true) ∧
    (∀ (s : PlannerState) (aId bId : Nat),
      (appCreateLink s aId bId).2.links ≠ s.links ↔
        (aId ≠ bId ∧ resolvedStrictEq s.towers aId bId = true ∧
          s.links.any (dupLinkTest aId bId) = false)) :=
  ⟨canLink_iff_toRat, mem_updateTower_links, createLink_changes_links_iff,
   jsNumEq_parse_iff_toRat, mem_appUpdateTower_links, appCreateLink_changes_links_iff⟩

/-- Two towers whose frequencies differ by 1 Hz at 1 GHz — within the
relative tolerance, but not strictly equal. -/
def tolPairState : PlannerState :=
  { towers := [⟨1, q0, q0, "1 ghz"⟩, ⟨2, q0, q0, "1.000000001 ghz"⟩]
    links := [], selectedTower := none, selectedLink := none, message := "", linkId := 1 }

/-- Claim C2 (counterexample): the App variant's `createLink` does not
use the relative-tolerance criterion.  The two towers of `tolPairState`
are within tolerance (`canLink` accepts them, and the part_000
`createLink` links them), yet the App `createLink` rejects the pair with
the mismatch message and creates nothing. -/
theorem appCreateLink_rejects_within_tolerance :
    (canLink ⟨1, q0, q0, "1 ghz"⟩ ⟨2, q0, q0, "1.000000001 ghz"⟩ = true) ∧
    ((appCreateLink tolPairState 1 2).2.links = [] ∧
      (appCreateLink tolPairState 1 2).2.message = "Frequencies do not match") ∧
    ((createLink tolPairState 1 2).2.links.map (fun l => (l.aId, l.bId)) = [(1, 2)]) := by
  decide

/-! ## Claim C7: unit semantics of the frequency parser -/

theorem JsNum.mul_ghz_toRat (n : JsNum) :
    (JsNum.mul n ghzFactor).toRat = n.toRat * 1000000000 := by
  rw [JsNum.mul_toRat]
  norm_num [ghzFactor, JsNum.toRat]

theorem JsNum.mul_mhz_toRat (n : JsNum) :
    (JsNum.mul n mhzFactor).toRat = n.toRat * 1000000 := by
  rw [JsNum.mul_toRat]
  norm_num [mhzFactor, JsNum.toRat]

/-- Claim C7: on a nonempty input, a `ghz`/`mhz`/`hz` suffix of the
trimmed lower-cased string scales the `parseFloat` value to GHz, MHz or
Hz respectively; with no such suffix a parsed value at least 1 is read
as GHz and below 1 as MHz; an input `parseFloat` cannot read (or the
empty string) yields the NaN sentinel `none`; and every frequency-match
check involving the sentinel fails, in both variants' criteria —
directly on two towers, and through the resolved-endpoint checks that
`createLink`/`updateTower` use, so such a link is rejected or removed. -/
theorem parseFreqHz_unit_semantics :
    (∀ f : String, f ≠ "" → jsEndsWith (jsToLower (jsTrim f.data)) "ghz".data = true →
      (parseFreqHz f).map JsNum.toRat
        = (jsParseFloat (jsToLower (jsTrim f.data))).map (fun n => n.toRat * 1000000000)) ∧
    (∀ f : String, f ≠ "" → jsEndsWith (jsToLower (jsTrim f.data)) "ghz".data = false →
      jsEndsWith (jsToLower (jsTrim f.data)) "mhz".data = true →
      (parseFreqHz f).map JsNum.toRat
        = (jsParseFloat (jsToLower (jsTrim f.data))).map (fun n => n.toRat * 1000000)) ∧
    (∀ f : String, f ≠ "" → jsEndsWith (jsToLower (jsTrim f.data)) "ghz".data = false →
      jsEndsWith (jsToLower (jsTrim f.data)) "mhz".data = false →
      jsEndsWith (jsToLower (jsTrim f.data)) "hz".data = true →
      parseFreqHz f = jsParseFloat (jsToLower (jsTrim f.data))) ∧
    (∀ f : String, f ≠ "" → jsEndsWith (jsToLower (jsTrim f.data)) "ghz".data = false →
      jsEndsWith (jsToLower (jsTrim f.data)) "mhz".data = false →
      jsEndsWith (jsToLower (jsTrim f.data)) "hz".data = false →
      (parseFreqHz f).map JsNum.toRat
        = (jsParseFloat (jsToLower (jsTrim f.data))).map
            (fun n => if 1 ≤ n.toRat then n.toRat * 1000000000 else n.toRat * 1000000)) ∧
    (∀ f : String, jsParseFloat (jsToLower (jsTrim f.data)) = none →
      parseFreqHz f = none) ∧
    (parseFreqHz "" = none) ∧
    (∀ a b : Tower,
      parseFreqHz a.freqStr = none ∨ parseFreqHz b.freqStr = none →
        canLink a b = false ∧
          jsNumEq (parseFreqHz a.freqStr) (parseFreqHz b.freqStr) = false) ∧
    (∀ (ts : List Tower) (aId bId : Nat) (a b : Tower),
      ts.find? (fun t => t.id == aId) = some a → ts.find? (fun t => t.id == bId) = some b →
      parseFreqHz a.freqStr = none ∨ parseFreqHz b.freqStr = none →
        resolvedCanLink ts aId bId = false ∧ resolvedStrictEq ts aId bId = false) := by
  have hsentinel : ∀ a b : Tower,
      parseFreqHz a.freqStr = none ∨ parseFreqHz b.freqStr = none →
        canLink a b = false ∧
          jsNumEq (parseFreqHz a.freqStr) (parseFreqHz b.freqStr) = false := by
    intro a b h
    rcases h with h | h
    · rcases hpb : parseFreqHz b.freqStr with _ | fb <;> simp [canLink, jsNumEq, h, hpb]
    · rcases hpa : parseFreqHz a.freqStr with _ | fa <;> simp [canLink, jsNumEq, h, hpa]
  refine ⟨?_, ?_, ?_, ?_, ?_, rfl, hsentinel, ?_⟩
  · intro f h1 h2
    rw [parseFreqHz, if_neg h1]
    dsimp only
    rw [if_pos h2]
    cases jsParseFloat (jsToLower (jsTrim f.data))
    · rfl
    · simp [JsNum.mul_ghz_toRat]
  · intro f h1 h2 h3
    rw [parseFreqHz, if_neg h1]
    dsimp only
    rw [if_neg (by rw [h2]; exact Bool.false_ne_true), if_pos h3]
    cases jsParseFloat (jsToLower (jsTrim f.data))
    · rfl
    · simp [JsNum.mul_mhz_toRat]
  · intro f h1 h2 h3 h4
    rw [parseFreqHz, if_neg h1]
    dsimp only
    rw [if_neg (by rw [h2]; exact Bool.false_ne_true),
      if_neg (by rw [h3]; exact Bool.false_ne_true), if_pos h4]
  · intro f h1 h2 h3 h4
    rw [parseFreqHz, if_neg h1]
    dsimp only
    rw [if_neg (by rw [h2]; exact Bool.false_ne_true),
      if_neg (by rw [h3]; exact Bool.false_ne_true),
      if_neg (by rw [h4]; exact Bool.false_ne_true)]
    cases hn : jsParseFloat (jsToLower (jsTrim f.data)) with
    | none => rfl
    | some n =>
      have hd := jsParseFloat_den_pos hn
      have h1' : (⟨1, 1⟩ : JsNum).toRat = 1 := by norm_num [JsNum.toRat]
      dsimp only [Option.map_some']
      by_cases hb : JsNum.le ⟨1, 1⟩ n = true
      · have : (1 : ℚ) ≤ n.toRat := h1' ▸ (JsNum.le_iff (by norm_num) hd).1 hb
        rw [if_pos hb, if_pos this, JsNum.mul_ghz_toRat]
      · have : ¬ (1 : ℚ) ≤ n.toRat := fun hc => hb ((JsNum.le_iff (by norm_num) hd).2 (h1' ▸ hc))
        rw [if_neg (by simpa using hb), if_neg this, JsNum.mul_mhz_toRat]
  · intro f h
    rw [parseFreqHz]
    by_cases hf : f = ""
    · rw [if_pos hf]
    · rw [if_neg hf]
      dsimp only
      rw [h]
      simp
  · intro ts aId bId a b hfa hfb h
    rw [resolvedCanLink, resolvedStrictEq, hfa, hfb]
    exact hsentinel a b h

/-- Witness for C7 at the concrete input `"2.4 ghz"`: nonempty, carries
the `ghz` suffix, and is scaled by 1e9. -/
theorem parseFreqHz_unit_semantics_witness :
    (("2.4 ghz" : String) ≠ "" ∧
      jsEndsWith (jsToLower (jsTrim ("2.4 ghz" : String).data)) "ghz".data = true) ∧
    (parseFreqHz "2.4 ghz").map JsNum.toRat
      = (jsParseFloat (jsToLower (jsTrim ("2.4 ghz" : String).data))).map
          (fun n => n.toRat * 1000000000) :=
  ⟨⟨by decide, by decide⟩, parseFreqHz_unit_semantics.1 "2.4 ghz" (by decide) (by decide)⟩

/-! ## Claims C4 and C6: the ellipse sampler -/

theorem abs_atan2_le_pi (y x : ℝ) : |atan2 y x| ≤ Real.pi := by
  have hpi := Real.pi_pos
  rw [atan2]
  split_ifs with h1 h2 h3 h4 h5
  · have ha := Real.neg_pi_div_two_lt_arctan (y / x)
    have hb := Real.arctan_lt_pi_div_two (y / x)
    rw [abs_le]
    constructor <;> linarith
  · have hz : y / x ≤ 0 := div_nonpos_iff.2 (Or.inl ⟨h2.2, h2.1.le⟩)
    have hup : Real.arctan (y / x) ≤ 0 := by
      have := Real.arctan_strictMono.monotone hz
      rwa [Real.arctan_zero] at this
    have hlow := Real.neg_pi_div_two_lt_arctan (y / x)
    rw [abs_le]
    constructor <;> linarith
  · have hz : 0 ≤ y / x := (div_pos_iff.2 (Or.inr ⟨h3.2, h3.1⟩)).le
    have hlow : 0 ≤ Real.arctan (y / x) := by
      have := Real.arctan_strictMono.monotone hz
      rwa [Real.arctan_zero] at this
    have hup := Real.arctan_lt_pi_div_two (y / x)
    rw [abs_le]
    constructor <;> linarith
  · rw [abs_le]
    constructor <;> linarith
  · rw [abs_le]
    constructor <;> linarith
  · rw [abs_le]
    constructor <;> linarith

theorem arcsin_deg_bounds (v : ℝ) :
    -90 ≤ Real.arcsin v * 180 / Real.pi ∧ Real.arcsin v * 180 / Real.pi ≤ 90 := by
  have hpi := Real.pi_pos
  have h1 := Real.neg_pi_div_two_le_arcsin v
  have h2 := Real.arcsin_le_pi_div_two v
  constructor
  · rw [le_div_iff₀ hpi]
    linarith
  · rw [div_le_iff₀ hpi]
    linarith

theorem ydeg_abs_bound (lon t : ℝ) (ht : |t| ≤ Real.pi) :
    |(lon * Real.pi / 180 + t) * 180 / Real.pi| ≤ |lon| + 180 := by
  have hpi := Real.pi_pos
  have h180 : (0 : ℝ) < 180 := by norm_num
  have habs : |(lon * Real.pi / 180 + t) * 180 / Real.pi|
      = |lon * Real.pi / 180 + t| * 180 / Real.pi := by
    rw [abs_div, abs_mul, abs_of_pos hpi, abs_of_pos h180]
  have hy : |lon * Real.pi / 180| = |lon| * Real.pi / 180 := by
    rw [abs_div, abs_mul, abs_of_pos hpi, abs_of_pos h180]
  have h1 : |lon * Real.pi / 180 + t| ≤ |lon| * Real.pi / 180 + Real.pi := by
    calc |lon * Real.pi / 180 + t| ≤ |lon * Real.pi / 180| + |t| := abs_add _ _
      _ = |lon| * Real.pi / 180 + |t| := by rw [hy]
      _ ≤ |lon| * Real.pi / 180 + Real.pi := by linarith
  rw [habs]
  calc |lon * Real.pi / 180 + t| * 180 / Real.pi
      ≤ (|lon| * Real.pi / 180 + Real.pi) * 180 / Real.pi := by gcongr
    _ = |lon| + 180 := by
        field_simp
        ring

theorem destPoint_lat_bounds (lat lon brg dist : ℝ) :
    -90 ≤ (destPoint lat lon brg dist).1 ∧ (destPoint lat lon brg dist).1 ≤ 90 := by
  rw [destPoint]
  dsimp only
  exact arcsin_deg_bounds _

theorem destPoint_lng_bound (lat lon brg dist : ℝ) :
    |(destPoint lat lon brg dist).2| ≤ |lon| + 180 := by
  rw [destPoint]
  dsimp only
  exact ydeg_abs_bound lon _ (abs_atan2_le_pi _ _)

theorem doubleDest_bounds (clat clon brg x b2 y : ℝ) :
    -90 ≤ (destPoint (destPoint clat clon brg x).1 (destPoint clat clon brg x).2 b2 y).1 ∧
    (destPoint (destPoint clat clon brg x).1 (destPoint clat clon brg x).2 b2 y).1 ≤ 90 ∧
    |(destPoint (destPoint clat clon brg x).1 (destPoint clat clon brg x).2 b2 y).2| ≤
      |clon| + 360 := by
  refine ⟨(destPoint_lat_bounds _ _ _ _).1, (destPoint_lat_bounds _ _ _ _).2, ?_⟩
  have h1 := destPoint_lng_bound (destPoint clat clon brg x).1 (destPoint clat clon brg x).2 b2 y
  have h2 := destPoint_lng_bound clat clon brg x
  linarith

/-- The part_000 ellipse generator is exactly the sampler of the spec
with the unscaled axes `distance/2` and `r`. -/
theorem generateFresnelEllipse_eq_spec (lat1 lon1 lat2 lon2 r : ℝ) (steps : ℕ) :
    generateFresnelEllipse lat1 lon1 lat2 lon2 r steps =
      specEllipsePoints lat1 lon1 lat2 lon2 r steps := rfl

/-- The App ellipse generator is the same sampler with the semi-major
axis divided by 2000 and the semi-minor axis by 50. -/
theorem appGenerateFresnelEllipse_eq_axes (lat1 lon1 lat2 lon2 r : ℝ) (steps : ℕ) :
    appGenerateFresnelEllipse lat1 lon1 lat2 lon2 r steps =
      specEllipseAxes lat1 lon1 lat2 lon2
        (distanceMeters ⟨lat1, lon1⟩ ⟨lat2, lon2⟩ / 2 / 2000) (r / 50) steps := rfl

theorem specEllipseAxes_length (lat1 lon1 lat2 lon2 sM sm : ℝ) (steps : ℕ) :
    (specEllipseAxes lat1 lon1 lat2 lon2 sM sm steps).length = steps + 1 := by
  simp [specEllipseAxes]

theorem specEllipseAxes_getD_bounds (lat1 lon1 lat2 lon2 sM sm : ℝ) (steps i : ℕ) :
    -90 ≤ ((specEllipseAxes lat1 lon1 lat2 lon2 sM sm steps).getD i (0, 0)).1 ∧
    ((specEllipseAxes lat1 lon1 lat2 lon2 sM sm steps).getD i (0, 0)).1 ≤ 90 ∧
    |((specEllipseAxes lat1 lon1 lat2 lon2 sM sm steps).getD i (0, 0)).2| ≤
      |(lon1 + lon2) / 2| + 360 := by
  rw [specEllipseAxes]
  dsimp only
  rw [List.getD_eq_getElem?_getD, List.getElem?_map]
  rcases Nat.lt_or_ge i (steps + 1) with h | h
  · rw [List.getElem?_range h]
    dsimp only [Option.map_some', Option.getD_some]
    exact doubleDest_bounds _ _ _ _ _ _
  · rw [List.getElem?_eq_none (by simpa using h)]
    dsimp only [Option.map_none', Option.getD_none]
    refine ⟨by norm_num, by norm_num, ?_⟩
    have : (0 : ℝ) ≤ |(lon1 + lon2) / 2| := abs_nonneg _
    simp only [abs_zero]
    linarith

theorem specEllipseAxes_closed (lat1 lon1 lat2 lon2 sM sm : ℝ) (steps : ℕ) :
    (specEllipseAxes lat1 lon1 lat2 lon2 sM sm steps).getD steps (0, 0) =
      (specEllipseAxes lat1 lon1 lat2 lon2 sM sm steps).getD 0 (0, 0) := by
  by_cases hs : steps = 0
  · subst hs
    rfl
  · rw [specEllipseAxes]
    dsimp only
    rw [List.getD_eq_getElem?_getD, List.getD_eq_getElem?_getD, List.getElem?_map,
      List.getElem?_map, List.getElem?_range (Nat.lt_succ_self steps),
      List.getElem?_range (Nat.succ_pos steps)]
    dsimp only [Option.map_some', Option.getD_some]
    have h0 : (((0 : ℕ) : ℝ) / (steps : ℝ)) * 2 * Real.pi = 0 := by
      simp
    have h1 : (((steps : ℕ) : ℝ) / (steps : ℝ)) * 2 * Real.pi = 2 * Real.pi := by
      rw [div_self (Nat.cast_ne_zero.2 hs), one_mul]
    rw [h0, h1, Real.cos_two_pi, Real.sin_two_pi, Real.cos_zero, Real.sin_zero]

/-- Claim C6: both generators return exactly `steps+1` points (181 at
the default 180); every returned point has latitude within `[-90, 90]`
and longitude bounded (in absolute value by the center longitude plus
360 degrees, the embedding's reading of "finite"); and the ring is
closed — the last sample equals the first.  Out-of-range indices read
the default `(0, 0)`, which also satisfies the bounds. -/
theorem ellipse_ring_count_and_bounds (lat1 lon1 lat2 lon2 r : ℝ) (steps i : ℕ) :
    ((generateFresnelEllipse lat1 lon1 lat2 lon2 r steps).length = steps + 1) ∧
    ((appGenerateFresnelEllipse lat1 lon1 lat2 lon2 r steps).length = steps + 1) ∧
    (-90 ≤ ((generateFresnelEllipse lat1 lon1 lat2 lon2 r steps).getD i (0, 0)).1 ∧
      ((generateFresnelEllipse lat1 lon1 lat2 lon2 r steps).getD i (0, 0)).1 ≤ 90 ∧
      |((generateFresnelEllipse lat1 lon1 lat2 lon2 r steps).getD i (0, 0)).2| ≤
        |(lon1 + lon2) / 2| + 360) ∧
    (-90 ≤ ((appGenerateFresnelEllipse lat1 lon1 lat2 lon2 r steps).getD i (0, 0)).1 ∧
      ((appGenerateFresnelEllipse lat1 lon1 lat2 lon2 r steps).getD i (0, 0)).1 ≤ 90 ∧
      |((appGenerateFresnelEllipse lat1 lon1 lat2 lon2 r steps).getD i (0, 0)).2| ≤
        |(lon1 + lon2) / 2| + 360) ∧
    ((generateFresnelEllipse lat1 lon1 lat2 lon2 r steps).getD steps (0, 0) =
      (generateFresnelEllipse lat1 lon1 lat2 lon2 r steps).getD 0 (0, 0)) ∧
    ((appGenerateFresnelEllipse lat1 lon1 lat2 lon2 r steps).getD steps (0, 0) =
      (appGenerateFresnelEllipse lat1 lon1 lat2 lon2 r steps).getD 0 (0, 0)) := by
  rw [generateFresnelEllipse_eq_spec, appGenerateFresnelEllipse_eq_axes, specEllipsePoints]
  exact ⟨specEllipseAxes_length _ _ _ _ _ _ _, specEllipseAxes_length _ _ _ _ _ _ _,
    specEllipseAxes_getD_bounds _ _ _ _ _ _ _ _, specEllipseAxes_getD_bounds _ _ _ _ _ _ _ _,
    specEllipseAxes_closed _ _ _ _ _ _ _, specEllipseAxes_closed _ _ _ _ _ _ _⟩

/-! ### Claim C4: evaluation of both samplers at a concrete input

Endpoints `(0,0)` and `(0,1)` on the equator, radius 10 m: the haversine
distance is `R·π/180`, the bearing is due east (90°), and the first
sample (`i = 0`, angle 0) lands at longitude `center + semiMajor`,
making the two axis choices observable. -/

theorem distance_eval : distanceMeters ⟨0, 0⟩ ⟨0, 1⟩ = 6371000 * (Real.pi / 180) := by
  have hpi := Real.pi_pos
  have ht0 : (0 : ℝ) < Real.pi / 360 := by positivity
  have hsin : 0 < Real.sin (Real.pi / 360) :=
    Real.sin_pos_of_pos_of_lt_pi ht0 (by linarith)
  have hcos : 0 < Real.cos (Real.pi / 360) :=
    Real.cos_pos_of_mem_Ioo ⟨by linarith, by linarith⟩
  rw [distanceMeters]
  dsimp only
  rw [show ((0 : ℝ) * Real.pi / 180) = 0 by ring]
  rw [show (((0 : ℝ) - 0) * Real.pi / 180 / 2) = 0 by ring]
  rw [show (((1 : ℝ) - 0) * Real.pi / 180 / 2) = Real.pi / 360 by ring]
  rw [Real.sin_zero, Real.cos_zero]
  rw [show (0 : ℝ) * 0 + 1 * 1 * (Real.sin (Real.pi / 360) * Real.sin (Real.pi / 360))
      = Real.sin (Real.pi / 360) ^ 2 by ring]
  rw [Real.sqrt_sq hsin.le]
  rw [show (1 : ℝ) - Real.sin (Real.pi / 360) ^ 2 = Real.cos (Real.pi / 360) ^ 2 by
    have := Real.sin_sq_add_cos_sq (Real.pi / 360)
    linarith]
  rw [Real.sqrt_sq hcos.le]
  rw [atan2, if_pos hcos, ← Real.tan_eq_sin_div_cos,
    Real.arctan_tan (by linarith) (by linarith)]
  ring

theorem bearing_eval : bearingBetween ⟨0, 0⟩ ⟨0, 1⟩ = 90 := by
  have hpi := Real.pi_pos
  rw [bearingBetween]
  dsimp only
  rw [show ((0 : ℝ) * Real.pi / 180) = 0 by ring]
  rw [show ((1 : ℝ) * Real.pi / 180 - 0) = Real.pi / 180 by ring]
  rw [Real.sin_zero, Real.cos_zero]
  rw [show (1 : ℝ) * 0 - 0 * 1 * Real.cos (Real.pi / 180) = 0 by ring]
  have hy : 0 < Real.sin (Real.pi / 180) * 1 := by
    rw [mul_one]
    exact Real.sin_pos_of_pos_of_lt_pi (by positivity) (by linarith)
  rw [atan2, if_neg (lt_irrefl 0), if_neg (by simp), if_neg (by simp), if_pos ⟨rfl, hy⟩]
  rw [show Real.pi / 2 * 180 / Real.pi + 360 = 450 by field_simp; ring]
  have hfloor : ⌊(450 : ℝ) / 360⌋ = 1 := by
    rw [show (450 : ℝ) / 360 = 5 / 4 by norm_num]
    rw [Int.floor_eq_iff]
    constructor <;> norm_num
  rw [jsFmod, jsTrunc, if_pos (by norm_num : (0 : ℝ) ≤ 450 / 360), hfloor]
  push_cast
  ring

theorem destPoint_equator_east (lon dist : ℝ) (h1 : -(Real.pi / 2) < dist / 6371000)
    (h2 : dist / 6371000 < Real.pi / 2) :
    destPoint 0 lon 90 dist = (0, lon + dist / 6371000 * 180 / Real.pi) := by
  have hpi := Real.pi_pos
  rw [destPoint]
  rw [show ((0 : ℝ) * Real.pi / 180) = 0 by ring]
  rw [show ((90 : ℝ) * Real.pi / 180) = Real.pi / 2 by ring]
  rw [Real.sin_zero, Real.cos_zero, Real.cos_pi_div_two, Real.sin_pi_div_two]
  rw [show (0 : ℝ) * Real.cos (dist / 6371000) + 1 * Real.sin (dist / 6371000) * 0 = 0 by ring]
  rw [Real.arcsin_zero, Real.sin_zero]
  rw [show (1 : ℝ) * Real.sin (dist / 6371000) * 1 = Real.sin (dist / 6371000) by ring]
  rw [show Real.cos (dist / 6371000) - 0 * 0 = Real.cos (dist / 6371000) by ring]
  have hcos : 0 < Real.cos (dist / 6371000) := Real.cos_pos_of_mem_Ioo ⟨h1, h2⟩
  rw [atan2, if_pos hcos, ← Real.tan_eq_sin_div_cos, Real.arctan_tan h1 h2]
  rw [Prod.mk.injEq]
  constructor
  · norm_num
  · field_simp
    ring

theorem destPoint_zero_dist_equator (lon brg : ℝ) : destPoint 0 lon brg 0 = (0, lon) := by
  have hpi := Real.pi_pos
  rw [destPoint]
  rw [show ((0 : ℝ) / 6371000) = 0 by norm_num]
  rw [show ((0 : ℝ) * Real.pi / 180) = 0 by ring]
  rw [Real.sin_zero, Real.cos_zero]
  rw [show (0 : ℝ) * 1 + 1 * 0 * Real.cos (brg * Real.pi / 180) = 0 by ring]
  rw [Real.arcsin_zero, Real.sin_zero]
  rw [show Real.sin (brg * Real.pi / 180) * 0 * 1 = 0 by ring]
  rw [show (1 : ℝ) - 0 * 0 = 1 by ring]
  rw [atan2, if_pos one_pos]
  rw [show (0 : ℝ) / 1 = 0 by norm_num, Real.arctan_zero]
  rw [Prod.mk.injEq]
  constructor
  · norm_num
  · field_simp

theorem appEllipse_sample0 :
    ((appGenerateFresnelEllipse 0 0 0 1 10 180).getD 0 (0, 0)).2 = (0 + 1) / 2 + 1 / 4000 := by
  have hpi := Real.pi_pos
  have hpne : Real.pi ≠ 0 := ne_of_gt hpi
  rw [appGenerateFresnelEllipse]
  dsimp only
  rw [List.getD_eq_getElem?_getD, List.getElem?_map,
    List.getElem?_range (by norm_num : (0 : ℕ) < 180 + 1)]
  dsimp only [Option.map_some', Option.getD_some]
  rw [distance_eval, bearing_eval]
  rw [Nat.cast_zero]
  rw [show (0 : ℝ) / ((180 : ℕ) : ℝ) * 2 * Real.pi = 0 by ring]
  rw [Real.cos_zero, Real.sin_zero]
  rw [show (10 : ℝ) / 50 * 0 = 0 by ring]
  rw [show ((0 : ℝ) + 0) / 2 = 0 by norm_num]
  have h1 : -(Real.pi / 2) < (6371000 * (Real.pi / 180) / 2 / 2000 * 1) / 6371000 := by
    have he : (6371000 * (Real.pi / 180) / 2 / 2000 * 1) / 6371000 = Real.pi / 720000 := by
      ring
    rw [he]
    linarith
  have h2 : (6371000 * (Real.pi / 180) / 2 / 2000 * 1) / 6371000 < Real.pi / 2 := by
    have he : (6371000 * (Real.pi / 180) / 2 / 2000 * 1) / 6371000 = Real.pi / 720000 := by
      ring
    rw [he]
    linarith
  rw [destPoint_equator_east ((0 + 1) / 2) _ h1 h2]
  dsimp only
  rw [destPoint_zero_dist_equator]
  dsimp only
  have he2 : (6371000 * (Real.pi / 180) / 2 / 2000 * 1) / 6371000 * 180 / Real.pi
      = 1 / 4000 := by
    field_simp
    ring
  rw [he2]

theorem specEllipse_sample0 :
    ((specEllipsePoints 0 0 0 1 10 180).getD 0 (0, 0)).2 = (0 + 1) / 2 + 1 / 2 := by
  have hpi := Real.pi_pos
  have hpne : Real.pi ≠ 0 := ne_of_gt hpi
  rw [specEllipsePoints, specEllipseAxes]
  dsimp only
  rw [List.getD_eq_getElem?_getD, List.getElem?_map,
    List.getElem?_range (by norm_num : (0 : ℕ) < 180 + 1)]
  dsimp only [Option.map_some', Option.getD_some]
  rw [distance_eval, bearing_eval]
  rw [Nat.cast_zero]
  rw [show (0 : ℝ) / ((180 : ℕ) : ℝ) * 2 * Real.pi = 0 by ring]
  rw [Real.cos_zero, Real.sin_zero]
  rw [show (10 : ℝ) * 0 = 0 by ring]
  rw [show ((0 : ℝ) + 0) / 2 = 0 by norm_num]
  have h1 : -(Real.pi / 2) < (6371000 * (Real.pi / 180) / 2 * 1) / 6371000 := by
    have he : (6371000 * (Real.pi / 180) / 2 * 1) / 6371000 = Real.pi / 360 := by
      ring
    rw [he]
    linarith
  have h2 : (6371000 * (Real.pi / 180) / 2 * 1) / 6371000 < Real.pi / 2 := by
    have he : (6371000 * (Real.pi / 180) / 2 * 1) / 6371000 = Real.pi / 360 := by
      ring
    rw [he]
    linarith
  rw [destPoint_equator_east ((0 + 1) / 2) _ h1 h2]
  dsimp only
  rw [destPoint_zero_dist_equator]
  dsimp only
  have he2 : (6371000 * (Real.pi / 180) / 2 * 1) / 6371000 * 180 / Real.pi = 1 / 2 := by
    field_simp
    ring
  rw [he2]

/-- Claim C4 (counterexample): the App variant's ellipse generator does
not use the unscaled axes `semiMajor = distance/2`, `semiMinor = r`.  At
equator endpoints `(0,0)`–`(0,1)` with radius 10 m its sample list
differs from the claimed formula's: the first sample sits at longitude
`0.5 + 1/4000` (semi-major axis shrunk by 2000) instead of the claimed
`1.0`. -/
theorem appEllipse_deviates_from_spec_axes :
    appGenerateFresnelEllipse 0 0 0 1 10 180 ≠ specEllipsePoints 0 0 0 1 10 180 := by
  intro hEq
  have h := congrArg (fun l : List (ℝ × ℝ) => (l.getD 0 (0, 0)).2) hEq
  simp only [] at h
  rw [appEllipse_sample0, specEllipse_sample0] at h
  norm_num at h

/-- Claim C4 as amended: the part_000 generator emits, for every input
and sample index, exactly the claimed points — `destinationPoint`
applied twice from the degree-wise midpoint along `bearing(a,b)` and
`bearing+90`, with offsets `semiMajor·cos((i/steps)·2π)` and
`semiMinor·sin((i/steps)·2π)` for the unscaled axes
`semiMajor = distance(a,b)/2` and `semiMinor = r`; the App variant
instead feeds the same sampler the scaled axes `(distance/2)/2000` and
`r/50`. -/
theorem ellipse_matches_spec_formula (lat1 lon1 lat2 lon2 r : ℝ) (steps : ℕ) :
    generateFresnelEllipse lat1 lon1 lat2 lon2 r steps =
      specEllipsePoints lat1 lon1 lat2 lon2 r steps ∧
    appGenerateFresnelEllipse lat1 lon1 lat2 lon2 r steps =
      specEllipseAxes lat1 lon1 lat2 lon2
        (distanceMeters ⟨lat1, lon1⟩ ⟨lat2, lon2⟩ / 2 / 2000) (r / 50) steps :=
  ⟨generateFresnelEllipse_eq_spec lat1 lon1 lat2 lon2 r steps,
   appGenerateFresnelEllipse_eq_axes lat1 lon1 lat2 lon2 r steps⟩
